import Mathlib

/-!
Shallow embedding of the two core components of the git_tools repository:

* the porcelain status parser (`GetStatus` / `getStatusDescription` in the
  `git` package, `src/unnamed/part_004`), and
* the AI provider gateway (`GenerateCommitMessage`, the three provider
  adapters, `getModel`, `ValidateConfig`, `ValidateConfigParam` in
  `src/internal/ai/ai.go`, with the provider constants and the `AIConfig`
  and `GitStatus` models from the `models` package).

Strings are handled at the character-list level: Go's `strings.Split` on a
one-character separator is `splitLines`, `strings.Split` on the two-character
separator "->" is `splitOnArrow`, and `strings.TrimSpace` is `trimChars` /
`trimSpace`.  The HTTP exchange is modelled by an explicit transport function
`HttpRequest → HttpResponse`; each gateway entry point returns, next to its
result, the list of HTTP requests it issued, so that "performs no network
call" is the statement that this list is empty.  A failed Go type assertion
(`x.(T)` without the ok flag) is modelled by the `GoResult.crash` outcome.
-/

namespace GitTools

/-- Go `strings.Split(s, sep)` for a one-character separator, on char lists.
`splitLines [] = [[]]` just as `strings.Split("", sep) = [""]`. -/
def splitLines (sep : Char) : List Char → List (List Char)
  | [] => [[]]
  | c :: rest =>
    if c = sep then
      [] :: splitLines sep rest
    else
      match splitLines sep rest with
      | [] => [[c]]
      | l :: ls => (c :: l) :: ls

/-- Go `strings.Split(s, "->")` on char lists: split at every
(leftmost-first, non-overlapping) occurrence of the two characters `->`. -/
def splitOnArrow : List Char → List (List Char)
  | '-' :: '>' :: rest => [] :: splitOnArrow rest
  | c :: rest =>
    match splitOnArrow rest with
    | [] => [[c]]
    | l :: ls => (c :: l) :: ls
  | [] => [[]]

/-- Go `strings.TrimSpace` on char lists: drop whitespace from both ends. -/
def trimChars (cs : List Char) : List Char :=
  ((cs.dropWhile Char.isWhitespace).reverse.dropWhile Char.isWhitespace).reverse

/-- Go `strings.TrimSpace` on strings. -/
def trimSpace (s : String) : String :=
  String.mk (trimChars s.data)

/-- `models.FileChange`.  `GetStatus` never sets the additions/deletions
counters, so they keep their zero values. -/
structure FileChange where
  path : String
  status : String
  additions : Int := 0
  deletions : Int := 0
deriving Repr, DecidableEq

/-- `models.GitStatus`. -/
structure GitStatus where
  branch : String
  staged : List FileChange
  unstaged : List FileChange
  untracked : List String
  isRepo : Bool
  hasChanges : Bool
deriving Repr, DecidableEq

/-- `getStatusDescription` from the `git` package: the switch over the
two-byte porcelain status code, given here by its two characters. -/
def getStatusDescription (c0 c1 : Char) : String :=
  match c0, c1 with
  | 'M', ' ' => "Staged"
  | ' ', 'M' => "Modified"
  | 'M', 'M' => "Modified (staged and unstaged)"
  | 'A', ' ' => "Added"
  | ' ', 'D' => "Deleted"
  | 'D', ' ' => "Deleted (staged)"
  | 'R', ' ' => "Renamed"
  | 'C', ' ' => "Copied"
  | '?', '?' => "Untracked"
  | '!', '!' => "Ignored"
  | _, _ => "Unknown"

/-- One iteration of the `GetStatus` line loop.  A line shorter than three
characters (the Go code's `line == ""` skip and `len(line) >= 3` guard) leaves
the status unchanged.  Otherwise `c0 c1` are the status code (`line[:2]`),
the third character (the separating space, `line[2]`) is ignored, and `rest`
is `line[3:]`.  A path containing `->` is resolved to the text after the last
`->`, trimmed.  The three classification steps are the Go switch on
`statusCode[0]` (staged), the `statusCode[0] == '?'` check (untracked), and
the worktree-modification check (unstaged). -/
def processLine (st : GitStatus) (line : List Char) : GitStatus :=
  match line with
  | c0 :: c1 :: _ :: rest =>
    let parts := splitOnArrow rest
    let filePath := if parts.length > 1 then trimChars (parts.getLastD []) else rest
    let change : FileChange :=
      { path := String.mk filePath, status := getStatusDescription c0 c1 }
    let st1 :=
      if c0 = 'M' ∨ c0 = 'A' ∨ c0 = 'R' ∨ c0 = 'C' then
        { st with staged := st.staged ++ [change] }
      else st
    let st2 :=
      if c0 = '?' then
        { st1 with untracked := st1.untracked ++ [String.mk filePath] }
      else st1
    if (c1 = 'M' ∨ (c0 = '?' ∧ c1 = '?')) ∧ c0 ≠ '?' then
      { st2 with unstaged := st2.unstaged ++ [change] }
    else st2
  | _ => st

/-- The freshly constructed status at the top of `GetStatus`: `IsRepo` true,
all three change lists empty, `HasChanges` at its zero value. -/
def emptyStatus (branch : String) : GitStatus :=
  { branch := branch, staged := [], unstaged := [], untracked := []
    isRepo := true, hasChanges := false }

/-- The pure part of `GetStatus`: from the porcelain output (as returned by
`runGitCommand`, i.e. with the final newline already stripped) and the
resolved branch name to the `GitStatus`.  If the output is empty,
`HasChanges` stays false and the status is returned as constructed;
otherwise `HasChanges` is set to true and each line is classified. -/
def parseStatus (output : String) (branch : String) : GitStatus :=
  if output = "" then emptyStatus branch
  else
    (splitLines '\n' output.data).foldl processLine
      { emptyStatus branch with hasChanges := true }

/-! ## AI provider gateway (`src/internal/ai/ai.go`) -/

/-- The provider constants of the `models` package. -/
def ProviderOpenAI : String := "openai"

/-- Provider constant for the Claude-compatible API. -/
def ProviderClaude : String := "claude"

/-- Provider constant for the local Ollama API. -/
def ProviderOllama : String := "ollama"

/-- `models.AIConfig`. -/
structure AIConfig where
  provider : String
  apiKey : String
  baseURL : String
  model : String
deriving Repr, DecidableEq

/-- The `AIService` receiver: its one piece of held state is the current
configuration (the `http.Client` carries no data of its own). -/
structure AIService where
  config : AIConfig
deriving Repr, DecidableEq

/-- A JSON value, as produced by `json.Unmarshal` into `interface` values:
objects become string-keyed field lists, arrays become lists, numbers become
numerals (modelled as rationals). -/
inductive JValue where
  | null
  | bool (b : Bool)
  | num (q : ℚ)
  | str (s : String)
  | arr (elems : List JValue)
  | obj (fields : List (String × JValue))
deriving Repr

/-- Go map lookup `fields[key]`: `none` models the nil interface value
returned for an absent key. -/
def jlookup (fields : List (String × JValue)) (key : String) : Option JValue :=
  match fields with
  | [] => none
  | (k, v) :: rest => if k = key then some v else jlookup rest key

/-- The outcome of a Go function returning `(string, error)`: success, a
returned error, or a runtime crash from a failed unchecked type assertion. -/
inductive GoResult (α : Type) where
  | ok (val : α)
  | err (msg : String)
  | crash (msg : String)
deriving Repr, DecidableEq

/-- An outbound HTTP request as the adapters build it. -/
structure HttpRequest where
  method : String
  url : String
  headers : List (String × String)
  body : JValue
deriving Repr

/-- An HTTP response: status code plus the decoded JSON body; `none` models
a body `json.Unmarshal` rejects. -/
structure HttpResponse where
  status : Nat
  body : Option JValue
deriving Repr

/-- The network, abstracted: what `a.client.Do` answers for each request. -/
def Transport : Type := HttpRequest → HttpResponse

/-- `getModel`: the configured model, or the provider-specific default when
the configured model is empty. -/
def getModel (cfg : AIConfig) : String :=
  if cfg.model ≠ "" then cfg.model
  else if cfg.provider = ProviderOpenAI then "gpt-4"
  else if cfg.provider = ProviderClaude then "claude-3-sonnet-20240229"
  else if cfg.provider = ProviderOllama then "llama2"
  else "gpt-4"

/-- The fixed system instruction the OpenAI and Claude adapters embed. -/
def systemPrompt : String :=
  "你是一个专业的 git 提交信息助手，擅长生成简洁清晰的提交信息，遵循 Conventional Commits 规范。\n\n分析 git diff 并生成提交信息，要求：\n1. 使用中文编写提交信息\n2. 以类型开头（feat, fix, docs, style, refactor, test, chore 等）\n3. 后面跟简短的描述（不超过 50 字）\n4. 如有必要，添加更详细的正文说明\n5. 使用祈使句（用\"添加\"而非\"已添加\"）\n6. 明确具体地说明变更内容\n\n只返回提交信息本身，不要有其他解释。"

/-- The user message wrapping the diff for the OpenAI and Claude adapters. -/
def userPrompt (diff : String) : String :=
  "请为以下 diff 生成一个中文的 git 提交信息：\n\n" ++ diff

/-- The single prompt the Ollama adapter sends. -/
def ollamaPrompt (diff : String) : String :=
  "你是一个专业的 git 提交信息助手，擅长生成简洁清晰的提交信息，遵循 Conventional Commits 规范。\n\n分析 git diff 并生成中文提交信息。要求：\n1. 以类型开头（feat, fix, docs, style, refactor, test, chore 等）\n2. 后面跟简短的描述（不超过 50 字）\n3. 使用祈使句（用\"添加\"而非\"已添加\"）\n4. 只返回提交信息本身，不要有其他解释\n\nDiff:\n" ++ diff ++ "\n\n提交信息："

/-- Response extraction of `generateWithOpenAI` after the 200 check: decode
the body into a map (`failed to parse response` otherwise), read `choices`
with a checked array assertion (`no choices in response` when absent, of the
wrong type, or empty), then convert `choices[0]` and its `message` field with
unchecked assertions (a Go panic, `crash`, on any other shape), and read
`message.content` with a blank-ok string assertion, so a missing or
non-string content silently becomes the empty string; the result is the
trimmed content. -/
def parseOpenAIResponse (body : Option JValue) : GoResult String :=
  match body with
  | some (.obj fields) =>
    match jlookup fields "choices" with
    | some (.arr choices) =>
      match choices with
      | [] => .err "no choices in response"
      | choice :: _ =>
        match choice with
        | .obj choiceFields =>
          match jlookup choiceFields "message" with
          | some (.obj messageFields) =>
            let content :=
              match jlookup messageFields "content" with
              | some (.str s) => s
              | _ => ""
            .ok (trimSpace content)
          | _ => .crash "interface conversion on message field"
        | _ => .crash "interface conversion on choices element"
    | _ => .err "no choices in response"
  | _ => .err "failed to parse response"

/-- Response extraction of `generateWithClaude` after the 200 check: read
`content` with a checked array assertion (`no content in response` when
absent, of the wrong type, or empty), then take `content[0]` as an object and
its `text` field as a string, both with unchecked assertions (a Go panic,
`crash`, on any other shape); the result is the trimmed text. -/
def parseClaudeResponse (body : Option JValue) : GoResult String :=
  match body with
  | some (.obj fields) =>
    match jlookup fields "content" with
    | some (.arr content) =>
      match content with
      | [] => .err "no content in response"
      | item :: _ =>
        match item with
        | .obj itemFields =>
          match jlookup itemFields "text" with
          | some (.str text) => .ok (trimSpace text)
          | _ => .crash "interface conversion on text field"
        | _ => .crash "interface conversion on content element"
    | _ => .err "no content in response"
  | _ => .err "failed to parse response"

/-- Response extraction of `generateWithOllama` after the 200 check: read
`response` with a checked string assertion (`no response in output` when
absent or of the wrong type); the result is the trimmed string.  This
adapter performs no unchecked assertion, so it never crashes. -/
def parseOllamaResponse (body : Option JValue) : GoResult String :=
  match body with
  | some (.obj fields) =>
    match jlookup fields "response" with
    | some (.str s) => .ok (trimSpace s)
    | _ => .err "no response in output"
  | _ => .err "failed to parse response"

/-- The non-200 guard shared by all three adapters (the Go message also
carries the raw body text, which this model does not retain). -/
def httpThenParse (parse : Option JValue → GoResult String) (resp : HttpResponse) :
    GoResult String :=
  if resp.status ≠ 200 then
    .err ("API error (status " ++ toString resp.status ++ ")")
  else parse resp.body

/-- `generateWithOpenAI`: default base URL, chat-completions request with
bearer auth, one network call, then response extraction. -/
def generateWithOpenAI (cfg : AIConfig) (tr : Transport) (diff : String) :
    GoResult String × List HttpRequest :=
  let baseURL := if cfg.baseURL = "" then "https://api.openai.com/v1" else cfg.baseURL
  let req : HttpRequest :=
    { method := "POST"
      url := baseURL ++ "/chat/completions"
      headers := [("Content-Type", "application/json"),
                  ("Authorization", "Bearer " ++ cfg.apiKey)]
      body := .obj [("model", .str (getModel cfg)),
                    ("messages", .arr
                      [.obj [("role", .str "system"), ("content", .str systemPrompt)],
                       .obj [("role", .str "user"), ("content", .str (userPrompt diff))]]),
                    ("temperature", .num (3 / 10)),
                    ("max_tokens", .num 200)] }
  (httpThenParse parseOpenAIResponse (tr req), [req])

/-- `generateWithClaude`: default base URL, messages request with api-key and
version headers, one network call, then response extraction. -/
def generateWithClaude (cfg : AIConfig) (tr : Transport) (diff : String) :
    GoResult String × List HttpRequest :=
  let baseURL := if cfg.baseURL = "" then "https://api.anthropic.com/v1" else cfg.baseURL
  let req : HttpRequest :=
    { method := "POST"
      url := baseURL ++ "/messages"
      headers := [("Content-Type", "application/json"),
                  ("x-api-key", cfg.apiKey),
                  ("anthropic-version", "2023-06-01")]
      body := .obj [("model", .str (getModel cfg)),
                    ("max_tokens", .num 200),
                    ("system", .str systemPrompt),
                    ("messages", .arr
                      [.obj [("role", .str "user"), ("content", .str (userPrompt diff))]])] }
  (httpThenParse parseClaudeResponse (tr req), [req])

/-- `generateWithOllama`: default local base URL, generate request without
auth header (with the dead re-defaulting of an empty model kept from the
source), one network call, then response extraction. -/
def generateWithOllama (cfg : AIConfig) (tr : Transport) (diff : String) :
    GoResult String × List HttpRequest :=
  let baseURL := if cfg.baseURL = "" then "http://localhost:11434" else cfg.baseURL
  let model0 := getModel cfg
  let model := if model0 = "" then "llama2" else model0
  let req : HttpRequest :=
    { method := "POST"
      url := baseURL ++ "/api/generate"
      headers := [("Content-Type", "application/json")]
      body := .obj [("model", .str model),
                    ("prompt", .str (ollamaPrompt diff)),
                    ("stream", .bool false)] }
  (httpThenParse parseOllamaResponse (tr req), [req])

/-- `GenerateCommitMessage`: reject an empty (after trimming) diff and a
missing API key (unless the provider is Ollama) before any network activity,
then dispatch on the provider, rejecting unknown providers. -/
def GenerateCommitMessage (cfg : AIConfig) (tr : Transport) (diff : String) :
    GoResult String × List HttpRequest :=
  if trimSpace diff = "" then (.err "diff is empty", [])
  else if cfg.apiKey = "" ∧ cfg.provider ≠ ProviderOllama then
    (.err ("API key is required for " ++ cfg.provider), [])
  else if cfg.provider = ProviderOpenAI then generateWithOpenAI cfg tr diff
  else if cfg.provider = ProviderClaude then generateWithClaude cfg tr diff
  else if cfg.provider = ProviderOllama then generateWithOllama cfg tr diff
  else (.err ("unsupported AI provider: " ++ cfg.provider), [])

/-- `ValidateConfig`: the switch requires an API key for the OpenAI and
Claude providers (any other provider value falls through the switch with no
check), then an empty provider is rejected.  `none` is a nil error. -/
def ValidateConfig (a : AIService) : Option String :=
  if (a.config.provider = ProviderOpenAI ∨ a.config.provider = ProviderClaude)
      ∧ a.config.apiKey = "" then
    some ("API key is required for " ++ a.config.provider)
  else if a.config.provider = "" then some "provider must be specified"
  else none

/-- `ValidateConfigParam`: the same rule text as `ValidateConfig`, applied to
the argument configuration.  The method body never assigns to the receiver,
so the embedding returns the receiver unchanged next to the error value. -/
def ValidateConfigParam (a : AIService) (config : AIConfig) :
    AIService × Option String :=
  (a,
    if (config.provider = ProviderOpenAI ∨ config.provider = ProviderClaude)
        ∧ config.apiKey = "" then
      some ("API key is required for " ++ config.provider)
    else if config.provider = "" then some "provider must be specified"
    else none)

/-! ## Helper lemmas -/

/-- Classifying one line never touches the `hasChanges` flag. -/
theorem processLine_hasChanges (st : GitStatus) (line : List Char) :
    (processLine st line).hasChanges = st.hasChanges := by
  rcases line with _ | ⟨c0, _ | ⟨c1, _ | ⟨c2, rest⟩⟩⟩
  · rfl
  · rfl
  · rfl
  · simp only [processLine]
    split_ifs <;> rfl

/-- Folding the line classifier over any line list never touches the
`hasChanges` flag. -/
theorem foldl_processLine_hasChanges (lines : List (List Char)) (st : GitStatus) :
    (lines.foldl processLine st).hasChanges = st.hasChanges := by
  induction lines generalizing st with
  | nil => rfl
  | cons l ls ih => rw [List.foldl_cons, ih, processLine_hasChanges]

/-! ## Claims -/

/-- Claim C1, counterexample: on the input consisting of the single porcelain
line " D a.go" (a deletion not yet staged), the parser returns
`hasChanges = true` although all three change lists are empty, so
`hasChanges` is not equivalent to a list being non-empty. -/
theorem hasChanges_iff_nonempty_counterexample :
    (parseStatus " D a.go" "main").hasChanges = true ∧
    (parseStatus " D a.go" "main").staged = [] ∧
    (parseStatus " D a.go" "main").unstaged = [] ∧
    (parseStatus " D a.go" "main").untracked = [] :=
  ⟨rfl, rfl, rfl, rfl⟩

/-- Claim C1, amended: `hasChanges` is exactly "the raw porcelain output is
non-empty" (after the trailing-newline strip done by the command runner),
independent of whether any line classified into a list; an empty input
yields `hasChanges = false` and all three lists empty. -/
theorem hasChanges_tracks_raw_output (output branch : String) :
    (parseStatus output branch).hasChanges = !(output == "") ∧
    (parseStatus "" branch).staged = [] ∧
    (parseStatus "" branch).unstaged = [] ∧
    (parseStatus "" branch).untracked = [] := by
  refine ⟨?_, rfl, rfl, rfl⟩
  by_cases h : output = ""
  · subst h; rfl
  · rw [parseStatus, if_neg h, foldl_processLine_hasChanges]
    rw [beq_false_of_ne h]
    rfl

/-- Claim C2, counterexample: parsing the single line "MM a.go" puts the file
into the unstaged list as well (the claim states it must NOT be there). -/
theorem mm_not_in_unstaged_counterexample :
    (parseStatus "MM a.go" "main").staged =
      [{ path := "a.go", status := "Modified (staged and unstaged)" }] ∧
    (parseStatus "MM a.go" "main").unstaged =
      [{ path := "a.go", status := "Modified (staged and unstaged)" }] :=
  ⟨rfl, rfl⟩

/-- Claim C2, amended: a porcelain line "MM PATH" (with any separator
character and a path free of "->") appends the file, with category
"Modified (staged and unstaged)", to BOTH the staged list (because the index
character is M) and the unstaged list (because the worktree character is M
and the index character is not the question mark). -/
theorem mm_line_staged_and_unstaged (st : GitStatus) (c : Char) (p : List Char)
    (h : (splitOnArrow p).length ≤ 1) :
    processLine st ('M' :: 'M' :: c :: p) =
      { st with
        staged := st.staged ++
          [{ path := String.mk p, status := "Modified (staged and unstaged)" }],
        unstaged := st.unstaged ++
          [{ path := String.mk p, status := "Modified (staged and unstaged)" }] } := by
  have hnot : ¬ (splitOnArrow p).length > 1 := by omega
  simp only [processLine, if_neg hnot]
  simp
  decide

/-- Claim C2, amended, witness at the line "MM a.go" and the empty initial
status. -/
theorem mm_line_staged_and_unstaged_witness :
    processLine (emptyStatus "main") ('M' :: 'M' :: ' ' :: "a.go".data) =
      { emptyStatus "main" with
        staged := (emptyStatus "main").staged ++
          [{ path := String.mk "a.go".data, status := "Modified (staged and unstaged)" }],
        unstaged := (emptyStatus "main").unstaged ++
          [{ path := String.mk "a.go".data, status := "Modified (staged and unstaged)" }] } :=
  mm_line_staged_and_unstaged (emptyStatus "main") ' ' "a.go".data (by decide)

/-- Claim C3: for every configuration, every transport, and every diff that
is empty after trimming, `GenerateCommitMessage` fails with the empty-diff
error and issues no HTTP request at all. -/
theorem empty_diff_no_network (cfg : AIConfig) (tr : Transport) (diff : String)
    (h : trimSpace diff = "") :
    GenerateCommitMessage cfg tr diff = (.err "diff is empty", []) := by
  rw [GenerateCommitMessage, if_pos h]

/-- Claim C3, witness: a whitespace-only diff under the OpenAI provider with
a transport that would answer every request. -/
theorem empty_diff_no_network_witness :
    GenerateCommitMessage ⟨ProviderOpenAI, "key", "", ""⟩
        (fun _ => ⟨200, some (.obj [])⟩) "  \n\t " =
      (.err "diff is empty", []) :=
  empty_diff_no_network ⟨ProviderOpenAI, "key", "", ""⟩
    (fun _ => ⟨200, some (.obj [])⟩) "  \n\t " (by decide)

/-- Claim C4, counterexample: a 200 response whose body is
`(choices : (42))` — `choices[0]` an array element that is not an object —
makes the OpenAI adapter crash (the Go code's unchecked type assertion
panics) instead of returning a typed malformed-response error. -/
theorem malformed_response_counterexample :
    (GenerateCommitMessage ⟨ProviderOpenAI, "key", "", ""⟩
        (fun _ => ⟨200, some (.obj [("choices", .arr [.num 42])])⟩) "x").1 =
      .crash "interface conversion on choices element" :=
  rfl

/-- Claim C4, amended: a 200 body whose expected top-level key is missing, of
the wrong type, or an empty array yields the adapter's typed error ("not a
non-empty array of choices/content", "not a string response"), and the
Ollama adapter can never crash; but the unchecked nested assertions of the
OpenAI and Claude adapters crash on a wrong-typed nested value — choices[0]
or content[0] not an object, message absent or not an object, content[0].text
absent or not a string — instead of producing a typed error. -/
theorem malformed_response_amended (fields : List (String × JValue))
    (hc : ∀ x xs, jlookup fields "choices" ≠ some (.arr (x :: xs)))
    (hk : ∀ x xs, jlookup fields "content" ≠ some (.arr (x :: xs)))
    (hr : ∀ s, jlookup fields "response" ≠ some (.str s)) :
    parseOpenAIResponse (some (.obj fields)) = .err "no choices in response" ∧
    parseClaudeResponse (some (.obj fields)) = .err "no content in response" ∧
    parseOllamaResponse (some (.obj fields)) = .err "no response in output" ∧
    (∀ body msg, parseOllamaResponse body ≠ .crash msg) ∧
    parseOpenAIResponse (some (.obj [("choices", .arr [.num 42])])) =
      .crash "interface conversion on choices element" ∧
    parseOpenAIResponse (some (.obj [("choices", .arr
        [.obj [("message", .str "x")]])])) =
      .crash "interface conversion on message field" ∧
    parseOpenAIResponse (some (.obj [("choices", .arr [.obj []])])) =
      .crash "interface conversion on message field" ∧
    parseClaudeResponse (some (.obj [("content", .arr [.num 42])])) =
      .crash "interface conversion on content element" ∧
    parseClaudeResponse (some (.obj [("content", .arr
        [.obj [("text", .num 1)]])])) =
      .crash "interface conversion on text field" ∧
    parseClaudeResponse (some (.obj [("content", .arr [.obj []])])) =
      .crash "interface conversion on text field" := by
  refine ⟨?_, ?_, ?_, ?_, rfl, rfl, rfl, rfl, rfl, rfl⟩
  · rcases hj : jlookup fields "choices" with _ | v
    · simp only [parseOpenAIResponse, hj]
    · rcases v with _ | b | q | s | elems | oflds
      · simp only [parseOpenAIResponse, hj]
      · simp only [parseOpenAIResponse, hj]
      · simp only [parseOpenAIResponse, hj]
      · simp only [parseOpenAIResponse, hj]
      · rcases elems with _ | ⟨x, xs⟩
        · simp only [parseOpenAIResponse, hj]
        · exact absurd hj (hc x xs)
      · simp only [parseOpenAIResponse, hj]
  · rcases hj : jlookup fields "content" with _ | v
    · simp only [parseClaudeResponse, hj]
    · rcases v with _ | b | q | s | elems | oflds
      · simp only [parseClaudeResponse, hj]
      · simp only [parseClaudeResponse, hj]
      · simp only [parseClaudeResponse, hj]
      · simp only [parseClaudeResponse, hj]
      · rcases elems with _ | ⟨x, xs⟩
        · simp only [parseClaudeResponse, hj]
        · exact absurd hj (hk x xs)
      · simp only [parseClaudeResponse, hj]
  · rcases hj : jlookup fields "response" with _ | v
    · simp only [parseOllamaResponse, hj]
    · rcases v with _ | b | q | s | elems | oflds
      · simp only [parseOllamaResponse, hj]
      · simp only [parseOllamaResponse, hj]
      · simp only [parseOllamaResponse, hj]
      · exact absurd hj (hr s)
      · simp only [parseOllamaResponse, hj]
      · simp only [parseOllamaResponse, hj]
  · intro body msg hcrash
    unfold parseOllamaResponse at hcrash
    split at hcrash
    · split at hcrash <;> simp at hcrash
    · simp at hcrash

/-- Claim C4, amended, witness at the response object carrying none of the
expected keys. -/
theorem malformed_response_amended_witness :
    parseOpenAIResponse (some (.obj [("other", .str "x")])) =
      .err "no choices in response" ∧
    parseClaudeResponse (some (.obj [("other", .str "x")])) =
      .err "no content in response" ∧
    parseOllamaResponse (some (.obj [("other", .str "x")])) =
      .err "no response in output" ∧
    (∀ body msg, parseOllamaResponse body ≠ .crash msg) ∧
    parseOpenAIResponse (some (.obj [("choices", .arr [.num 42])])) =
      .crash "interface conversion on choices element" ∧
    parseOpenAIResponse (some (.obj [("choices", .arr
        [.obj [("message", .str "x")]])])) =
      .crash "interface conversion on message field" ∧
    parseOpenAIResponse (some (.obj [("choices", .arr [.obj []])])) =
      .crash "interface conversion on message field" ∧
    parseClaudeResponse (some (.obj [("content", .arr [.num 42])])) =
      .crash "interface conversion on content element" ∧
    parseClaudeResponse (some (.obj [("content", .arr
        [.obj [("text", .num 1)]])])) =
      .crash "interface conversion on text field" ∧
    parseClaudeResponse (some (.obj [("content", .arr [.obj []])])) =
      .crash "interface conversion on text field" :=
  malformed_response_amended [("other", .str "x")]
    (fun _ _ h => by simp [jlookup] at h)
    (fun _ _ h => by simp [jlookup] at h)
    (fun _ h => by simp [jlookup] at h)

/-- Claim C5, counterexample: a 200 OpenAI response in which
`choices[0].message` carries no `content` field makes the call return
SUCCESS with the empty string (the Go code's blank-ok string assertion turns
the missing field into ""), instead of a malformed-response error. -/
theorem empty_success_counterexample :
    (GenerateCommitMessage ⟨ProviderOpenAI, "key", "", ""⟩
        (fun _ => ⟨200, some (.obj [("choices", .arr [.obj [("message", .obj [])]])])⟩)
        "x").1 =
      .ok "" :=
  rfl

/-- Claim C5, amended: every successful extraction returns the provider text
with surrounding whitespace trimmed, but the result may be empty — a missing
or empty extracted text yields success with "" rather than an error. -/
theorem success_is_trimmed_text (content text rtext : String) :
    parseOpenAIResponse (some (.obj [("choices", .arr
        [.obj [("message", .obj [("content", .str content)])]])])) =
      .ok (trimSpace content) ∧
    parseClaudeResponse (some (.obj [("content", .arr
        [.obj [("text", .str text)]])])) =
      .ok (trimSpace text) ∧
    parseOllamaResponse (some (.obj [("response", .str rtext)])) =
      .ok (trimSpace rtext) ∧
    parseOpenAIResponse (some (.obj [("choices", .arr
        [.obj [("message", .obj [])]])])) = .ok "" :=
  ⟨rfl, rfl, rfl, rfl⟩

/-- Claim C6, counterexample: for the unknown non-empty provider "foo", both
validation entry points return nil (no error) — they do not mirror the
gateway's unsupported-provider rejection. -/
theorem unknown_provider_validation_counterexample :
    ValidateConfig ⟨⟨"foo", "", "", ""⟩⟩ = none ∧
    (ValidateConfigParam ⟨⟨"openai", "key", "", ""⟩⟩ ⟨"foo", "", "", ""⟩).2 = none :=
  ⟨rfl, rfl⟩

/-- Claim C6, amended: an unknown non-empty provider falls through the
validation switch unchecked, so `ValidateConfig` and `ValidateConfigParam`
accept it (return nil) whatever the API key; the rejection happens only in
`GenerateCommitMessage` — with the missing-credential error when the API key
is empty (that guard fires before the provider switch), and with the
unsupported-provider error otherwise. -/
theorem unknown_provider_behaviour (p k burl m : String) (a : AIService)
    (tr : Transport)
    (h1 : p ≠ ProviderOpenAI) (h2 : p ≠ ProviderClaude) (h3 : p ≠ ProviderOllama)
    (h4 : p ≠ "") :
    ValidateConfig ⟨⟨p, k, burl, m⟩⟩ = none ∧
    (ValidateConfigParam a ⟨p, k, burl, m⟩).2 = none ∧
    (GenerateCommitMessage ⟨p, k, burl, m⟩ tr "x").1 =
      (if k = "" then .err ("API key is required for " ++ p)
       else .err ("unsupported AI provider: " ++ p)) := by
  refine ⟨?_, ?_, ?_⟩
  · simp [ValidateConfig, h1, h2, h4]
  · simp [ValidateConfigParam, h1, h2, h4]
  · rw [GenerateCommitMessage, if_neg (by decide : ¬ trimSpace "x" = "")]
    by_cases hk : k = ""
    · rw [if_pos ⟨hk, h3⟩, if_pos hk]
    · rw [if_neg (fun h => hk h.1), if_neg h1, if_neg h2, if_neg h3, if_neg hk]

/-- Claim C6, amended, witness at the provider "foo" with an empty API key. -/
theorem unknown_provider_behaviour_witness :
    ValidateConfig ⟨⟨"foo", "", "", ""⟩⟩ = none ∧
    (ValidateConfigParam ⟨⟨"ollama", "k", "", ""⟩⟩ ⟨"foo", "", "", ""⟩).2 = none ∧
    (GenerateCommitMessage ⟨"foo", "", "", ""⟩
        (fun _ => ⟨200, some (.obj [])⟩) "x").1 =
      (if ("" : String) = "" then .err ("API key is required for " ++ "foo")
       else .err ("unsupported AI provider: " ++ "foo")) :=
  unknown_provider_behaviour "foo" "" "" "" ⟨⟨"ollama", "k", "", ""⟩⟩
    (fun _ => ⟨200, some (.obj [])⟩)
    (by decide) (by decide) (by decide) (by decide)

/-- Claim C7: with an empty API key, validation succeeds for the Ollama
provider but fails with the missing-credential error for the OpenAI and
Claude providers, in both validation entry points. -/
theorem api_key_validation (a : AIService) (burl m : String) :
    (ValidateConfigParam a ⟨ProviderOllama, "", burl, m⟩).2 = none ∧
    (ValidateConfigParam a ⟨ProviderOpenAI, "", burl, m⟩).2 =
      some "API key is required for openai" ∧
    (ValidateConfigParam a ⟨ProviderClaude, "", burl, m⟩).2 =
      some "API key is required for claude" ∧
    ValidateConfig ⟨⟨ProviderOllama, "", burl, m⟩⟩ = none ∧
    ValidateConfig ⟨⟨ProviderOpenAI, "", burl, m⟩⟩ =
      some "API key is required for openai" ∧
    ValidateConfig ⟨⟨ProviderClaude, "", burl, m⟩⟩ =
      some "API key is required for claude" :=
  ⟨rfl, rfl, rfl, rfl, rfl, rfl⟩

/-- Claim C8: an empty model resolves to the provider-specific default
("gpt-4", "claude-3-sonnet-20240229", "llama2"); a non-empty model is used
unchanged for every provider. -/
theorem model_resolution (p k burl m : String) (hm : m ≠ "") :
    getModel ⟨ProviderOpenAI, k, burl, ""⟩ = "gpt-4" ∧
    getModel ⟨ProviderClaude, k, burl, ""⟩ = "claude-3-sonnet-20240229" ∧
    getModel ⟨ProviderOllama, k, burl, ""⟩ = "llama2" ∧
    getModel ⟨p, k, burl, m⟩ = m := by
  refine ⟨rfl, rfl, rfl, ?_⟩
  rw [getModel, if_pos hm]

/-- Claim C8, witness at the model "mistral" under the provider "openai". -/
theorem model_resolution_witness :
    getModel ⟨ProviderOpenAI, "key", "u", ""⟩ = "gpt-4" ∧
    getModel ⟨ProviderClaude, "key", "u", ""⟩ = "claude-3-sonnet-20240229" ∧
    getModel ⟨ProviderOllama, "key", "u", ""⟩ = "llama2" ∧
    getModel ⟨ProviderOpenAI, "key", "u", "mistral"⟩ = "mistral" :=
  model_resolution ProviderOpenAI "key" "u" "mistral" (by decide)

/-- Claim C9: validating a candidate configuration leaves the held
configuration untouched — the receiver comes back with identical provider,
apiKey, baseURL and model fields, whatever the candidate and the outcome. -/
theorem validation_frame (a : AIService) (cfg : AIConfig) :
    (ValidateConfigParam a cfg).1 = a ∧
    (ValidateConfigParam a cfg).1.config.provider = a.config.provider ∧
    (ValidateConfigParam a cfg).1.config.apiKey = a.config.apiKey ∧
    (ValidateConfigParam a cfg).1.config.baseURL = a.config.baseURL ∧
    (ValidateConfigParam a cfg).1.config.model = a.config.model :=
  ⟨rfl, rfl, rfl, rfl, rfl⟩

/-- Claim C10: a porcelain line whose code is " D" (deletion not staged) or
"D " (deletion staged) is appended to none of the three change lists — the
classifier returns the status unchanged — although the status-code table
maps these codes to "Deleted" and "Deleted (staged)". -/
theorem deletion_lines_unclassified (st : GitStatus) (c : Char) (p : List Char) :
    processLine st (' ' :: 'D' :: c :: p) = st ∧
    processLine st ('D' :: ' ' :: c :: p) = st ∧
    getStatusDescription ' ' 'D' = "Deleted" ∧
    getStatusDescription 'D' ' ' = "Deleted (staged)" := by
  refine ⟨?_, ?_, rfl, rfl⟩ <;> simp [processLine]

end GitTools
